import Mathlib

/-!
Verification of the profile load/cache orchestrator and the account secret store.

Shallow embedding of `src/app/shared/profile/profile.proxy.ts` (`ProfileProxy`)
and `src/app/shared/security-service/nostr-secret.statefull.ts`
(`NostrSecretStatefull`).  Shared mutable state (the profile cache map, the
account registry, the `BehaviorSubject` stream and the durable storage blob)
is passed explicitly; promise rejection / thrown exceptions are modelled with
`Except` or an explicit success flag; the remote API, the encryption
collaborator and the key-derivation routine are external collaborators and
appear as function parameters.
-/

/-- Embeds `DataLoadType` (`@domain/data-load.type`): per-profile load state.
Modelled from the spec: forward-only state machine
UNRESOLVED → LAZY_LOADED → EAGER_LOADED. -/
inductive DataLoadType where
  | UNRESOLVED
  | LAZY_LOADED
  | EAGER_LOADED
deriving Repr, DecidableEq

/-- Embeds `NostrUser` (`@domain/nostr-user`): a locally constructed user handle
holding the raw secret and the canonical public identifier derived from it.
The derivation itself is cryptographic and external; it enters the model as a
parameter. -/
structure NostrUser where
  nsec : String
  nostrPublic : String
deriving Repr, DecidableEq

/-- Embeds `IProfile` (`@domain/profile.interface`): canonical identifier, opaque
display data, the optional local user handle attached after account creation,
and the load-state tag. -/
structure IProfile where
  npub : String
  displayName : String
  user : Option NostrUser := none
  load : DataLoadType
deriving Repr, DecidableEq

/-- A raw remote record as returned by the Remote Profile Source for one
requested identifier. -/
structure ProfileEvent where
  npub : String
  content : String
deriving Repr, DecidableEq

/-- Failure of an orchestrator call: the remote fetch rejected, or a JS
`TypeError` (property assignment on `undefined`). -/
inductive FetchErr where
  | fetchFailed
  | typeError
deriving Repr, DecidableEq

/-- Embeds `IUnauthenticatedUser`: a local account record binding a public identifier
to an encrypted-secret blob. -/
structure IUnauthenticatedUser where
  npub : String
  nsecEncrypted : String
deriving Repr, DecidableEq

/-! Account secret store (`NostrSecretStatefull`). -/

/-- The full observable state of `NostrSecretStatefull`: the in-memory
registry `accounts` (a JS object keyed by `npub`, i.e. an insertion-ordered
map, here a list with at most one entry per `npub`), the durable storage blob
written under `NostrSecretStatefull_accounts` (kept as the serialized
registry), and the sequence of snapshots emitted on the accounts
`BehaviorSubject` (the last element is the current subject value). -/
structure StoreState where
  accounts : List IUnauthenticatedUser
  blob : List IUnauthenticatedUser
  emitted : List (List IUnauthenticatedUser)
deriving Repr, DecidableEq

/-- Embeds `accounts[unauthenticated.npub] = unauthenticated`: JS object upsert —
replaces in place when the key exists, appends otherwise. -/
def upsertAccount (l : List IUnauthenticatedUser) (u : IUnauthenticatedUser) :
    List IUnauthenticatedUser :=
  if l.any (fun v => v.npub == u.npub) then
    l.map (fun v => if v.npub == u.npub then u else v)
  else
    l ++ [u]

/-- Embeds `delete this.accounts[profile.npub]`. -/
def deleteAccount (l : List IUnauthenticatedUser) (npub : String) :
    List IUnauthenticatedUser :=
  l.filter (fun v => v.npub != npub)

/-- Construction: `accounts` is parsed from the durable blob,
and the `BehaviorSubject` is created with `Object.values(this.accounts)` as
its initial value. -/
def initStore (persisted : List IUnauthenticatedUser) : StoreState :=
  { accounts := persisted, blob := persisted, emitted := [persisted] }

/-- Embeds `private update()`: `localStorage.setItem(key, JSON.stringify(accounts))`
then `accountsSubject.next(Object.values(accounts))`.  `writeOk` models
whether the durable write succeeds; when it throws, `next` is never reached
and the exception escapes (success flag `false`), leaving blob and stream
untouched. -/
def update (writeOk : Bool) (s : StoreState) : StoreState × Bool :=
  if writeOk then
    ({ s with blob := s.accounts, emitted := s.emitted ++ [s.accounts] }, true)
  else
    (s, false)

/-- Embeds `addAccount`: upsert into the in-memory registry, then `update()`. -/
def addAccount (writeOk : Bool) (u : IUnauthenticatedUser) (s : StoreState) :
    StoreState × Bool :=
  update writeOk { s with accounts := upsertAccount s.accounts u }

/-- Embeds `removeAccount`: delete from the in-memory registry, then `update()`. -/
def removeAccount (writeOk : Bool) (u : IUnauthenticatedUser) (s : StoreState) :
    StoreState × Bool :=
  update writeOk { s with accounts := deleteAccount s.accounts u.npub }

/-- Embeds `createAccount(profile, pin?)`: delegates to
`profileEncrypt.encryptAccount`; returns `null` when encryption produced
nothing, otherwise the encrypted account record; never touches the registry
state. -/
def createAccount
    (encryptAccount : IProfile → Option String → Option IUnauthenticatedUser)
    (profile : IProfile) (pin : Option String) (s : StoreState) :
    StoreState × Option IUnauthenticatedUser :=
  match encryptAccount profile pin with
  | none => (s, none)
  | some u => (s, some u)

/-- The `BehaviorSubject` value a new subscriber receives at subscribe time:
the latest emitted snapshot. -/
def subscribeNow (s : StoreState) : Option (List IUnauthenticatedUser) :=
  s.emitted.getLast?

/-- Registry lookup by identifier (JS `accounts[npub]`). -/
def findAccount (l : List IUnauthenticatedUser) (npub : String) :
    Option IUnauthenticatedUser :=
  l.find? (fun v => v.npub == npub)

/-! Profile cache (`ProfileCache`). -/

/-- The shared `ProfileCache.profiles` map, keyed by the `npub` of each profile
(at most one entry per identifier, maintained by upsert). -/
abbrev ProfileCacheState : Type := List IProfile

/-- Embeds the `ProfileCache.profiles[npub]` lookup. -/
def findProfile (st : ProfileCacheState) (npub : String) : Option IProfile :=
  st.find? (fun p => p.npub == npub)

/-- Modelled from the spec: `ProfileCache.isEagerLoaded` is not under `src/`;
per §4.1, true iff the entry exists and its load state is `EAGER_LOADED`. -/
def isEagerLoaded (st : ProfileCacheState) (npub : String) : Bool :=
  match findProfile st npub with
  | some p => p.load == DataLoadType.EAGER_LOADED
  | none => false

/-- Ordering of the forward-only load-state machine, used by the sticky merge. -/
def stateRank : DataLoadType → Nat
  | DataLoadType.UNRESOLVED => 0
  | DataLoadType.LAZY_LOADED => 1
  | DataLoadType.EAGER_LOADED => 2

/-- Modelled from the spec: the merge keeps the more advanced load state
(`EAGER_LOADED` is sticky, never downgraded). -/
def mergeState (old new : DataLoadType) : DataLoadType :=
  if stateRank new < stateRank old then old else new

/-- Modelled from the spec: the cache casts a raw remote record into a domain
profile; records cached through `forceProfileReload` are the direct answer to
an explicit request, hence `EAGER_LOADED`. -/
def castEvent (e : ProfileEvent) : IProfile :=
  { npub := e.npub, displayName := e.content, user := none,
    load := DataLoadType.EAGER_LOADED }

/-- Modelled from the spec: upsert of one cast profile — overwrites display
fields, keeps the locally attached user handle, and merges the load state
forward-only. -/
def upsertProfile (st : ProfileCacheState) (p : IProfile) : ProfileCacheState :=
  match findProfile st p.npub with
  | some _ =>
      st.map (fun q =>
        if q.npub == p.npub then
          { p with user := q.user, load := mergeState q.load p.load }
        else q)
  | none => st ++ [p]

/-- Modelled from the spec: `ProfileCache.cache(events)` casts each record and
upserts it. -/
def cacheEvents (st : ProfileCacheState) (evs : List ProfileEvent) :
    ProfileCacheState :=
  evs.foldl (fun s e => upsertProfile s (castEvent e)) st

/-- Modelled from the spec: `ProfileCache.get(npub)` returns the cached
profile; a never-seen identifier yields an `UNRESOLVED` placeholder (the
documented placeholder policy of §4.1). -/
def cacheGet (st : ProfileCacheState) (npub : String) : IProfile :=
  match findProfile st npub with
  | some p => p
  | none =>
      { npub := npub, displayName := "", user := none,
        load := DataLoadType.UNRESOLVED }

/-- Embeds `profile.user = user` through the alias returned by the cache: the write
lands on the cache entry when one exists for that identifier. -/
def cacheSetUser (st : ProfileCacheState) (npub : String) (u : NostrUser) :
    ProfileCacheState :=
  st.map (fun q => if q.npub == npub then { q with user := some u } else q)

/-! Profile orchestrator (`ProfileProxy`). -/

/-- The Remote Profile Source contract (`ProfileApi.loadProfiles`): an
identifier list in, a promise of raw records that may reject as a unit. -/
def RemoteApi : Type := List String → Except FetchErr (List ProfileEvent)

/-- Outcome of a batch-returning orchestrator call: the cache afterwards, the
identifier lists passed to the remote source (one entry per remote fetch
issued, in order), and the resolved profile array or the propagated error. -/
structure LoadOutcome where
  cache : ProfileCacheState
  calls : List (List String)
  result : Except FetchErr (List IProfile)

/-- Outcome of a single-profile orchestrator call; `result = .ok none` models
a promise resolving to JS `undefined`. -/
structure LoadOneOutcome where
  cache : ProfileCacheState
  calls : List (List String)
  result : Except FetchErr (Option IProfile)

/-- Embeds `[...new Set(npubss.flat(1))]`: flatten one level, then de-duplicate
keeping first occurrences in order (JS `Set` insertion order). -/
def jsSetDedup (l : List String) : List String :=
  l.foldl (fun acc x => if acc.contains x then acc else acc ++ [x]) []

/-- Embeds `private async forceProfileReload(npubs)`: awaits the remote fetch for
exactly the given identifiers, caches the returned events, and resolves with
the cache view of the requested identifiers; a rejected fetch propagates
and the cache is untouched. -/
def forceProfileReload (api : RemoteApi) (st : ProfileCacheState)
    (npubs : List String) : LoadOutcome :=
  match api npubs with
  | Except.error e => { cache := st, calls := [npubs], result := Except.error e }
  | Except.ok evs =>
      let st1 := cacheEvents st evs
      { cache := st1, calls := [npubs],
        result := Except.ok (npubs.map (fun n => cacheGet st1 n)) }

/-- The identifier list `loadProfiles` passes to its one remote fetch:
`notLoaded = [...new Set(npubss.flat(1))].filter(n => !isEagerLoaded(n))`. -/
def notLoadedOf (st : ProfileCacheState) (npubss : List (List String)) :
    List String :=
  (jsSetDedup npubss.flatten).filter (fun n => !isEagerLoaded st n)

/-- Embeds `async loadProfiles(...npubss)`: dedup the union of all batches, drop the
identifiers already `EAGER_LOADED`, and delegate the rest to
`forceProfileReload`. -/
def loadProfiles (api : RemoteApi) (st : ProfileCacheState)
    (npubss : List (List String)) : LoadOutcome :=
  forceProfileReload api st (notLoadedOf st npubss)

/-- Embeds `async loadProfile(npub)`: `loadProfiles([npub]).then(ps => ps[0])`. -/
def loadProfile (api : RemoteApi) (st : ProfileCacheState) (npub : String) :
    LoadOneOutcome :=
  let o := loadProfiles api st [[npub]]
  match o.result with
  | Except.error e => { cache := o.cache, calls := o.calls, result := Except.error e }
  | Except.ok ps => { cache := o.cache, calls := o.calls, result := Except.ok ps[0]? }

/-- The single-identifier overload of `async load(npubs)`: return the indexed
profile unless it is absent or `LAZY_LOADED`, in which case fall through to
`loadProfile`. -/
def load (api : RemoteApi) (st : ProfileCacheState) (npub : String) :
    LoadOneOutcome :=
  match findProfile st npub with
  | some indexedProfile =>
      if indexedProfile.load == DataLoadType.LAZY_LOADED then
        loadProfile api st npub
      else
        { cache := st, calls := [], result := Except.ok (some indexedProfile) }
  | none => loadProfile api st npub

/-- Embeds `async loadAccount(nsec, pin)`: build the `NostrUser` handle (the
`nsec → npub` derivation is the external `NostrUser` constructor, passed as
`derive`), load the profile of that identifier, assign the handle to the
`user` field (a write through the shared cached object), then delegate to
`NostrSecretStatefull.createAccount`.  Returns the account (or `null`)
without persisting anything. -/
def loadAccount (api : RemoteApi)
    (encryptAccount : IProfile → Option String → Option IUnauthenticatedUser)
    (derive : String → String) (st : ProfileCacheState) (store : StoreState)
    (nsec : String) (pin : String) :
    ProfileCacheState × StoreState × Except FetchErr (Option IUnauthenticatedUser) :=
  let user : NostrUser := { nsec := nsec, nostrPublic := derive nsec }
  let o := load api st user.nostrPublic
  match o.result with
  | Except.error e => (o.cache, store, Except.error e)
  | Except.ok none => (o.cache, store, Except.error FetchErr.typeError)
  | Except.ok (some p) =>
      let profile := { p with user := some user }
      let st2 := cacheSetUser o.cache p.npub user
      let r := createAccount encryptAccount profile (some pin) store
      (st2, r.1, Except.ok r.2)

/-! Concrete collaborators and states used to instantiate the theorems. -/

/-- A remote source that answers every requested identifier with one record. -/
def apiEcho : RemoteApi :=
  fun l => Except.ok (l.map (fun n => { npub := n, content := "c:" ++ n }))

/-- A remote source whose fetch always rejects. -/
def apiFail : RemoteApi := fun _ => Except.error FetchErr.fetchFailed

/-- An eager-loaded cached profile for identifier `p1`. -/
def pEager : IProfile :=
  { npub := "p1", displayName := "d1", user := none,
    load := DataLoadType.EAGER_LOADED }

/-- A cache holding exactly the eager-loaded `p1`. -/
def cacheP1 : ProfileCacheState := [pEager]

/-- An encryption collaborator that fails to produce an account. -/
def encryptNone : IProfile → Option String → Option IUnauthenticatedUser :=
  fun _ _ => none

/-- A concrete `nsec → npub` derivation stand-in. -/
def deriveN : String → String := fun s => "n:" ++ s

/-- The profile cached for `deriveN "sec"` after `apiEcho` answers it. -/
def prof1 : IProfile :=
  { npub := "n:sec", displayName := "c:n:sec", user := none,
    load := DataLoadType.EAGER_LOADED }

/-! Helper lemmas. -/

theorem createAccount_state_eq
    (e : IProfile → Option String → Option IUnauthenticatedUser)
    (p : IProfile) (pin : Option String) (s : StoreState) :
    (createAccount e p pin s).1 = s := by
  unfold createAccount
  cases e p pin <;> rfl

theorem createAccount_result_eq
    (e : IProfile → Option String → Option IUnauthenticatedUser)
    (p : IProfile) (pin : Option String) (s : StoreState) :
    (createAccount e p pin s).2 = e p pin := by
  unfold createAccount
  cases e p pin <;> rfl

theorem find_delete_none (l : List IUnauthenticatedUser) (n : String) :
    findAccount (deleteAccount l n) n = none := by
  induction l with
  | nil => rfl
  | cons a t ih =>
    simp only [findAccount, deleteAccount] at ih ⊢
    rw [List.filter_cons]
    cases h : (a.npub == n) with
    | true =>
      have hb : (a.npub != n) = false := by simp [bne, h]
      rw [hb]
      simp only [Bool.false_eq_true, if_false]
      exact ih
    | false =>
      have hb : (a.npub != n) = true := by simp [bne, h]
      rw [hb]
      simp only [if_true]
      rw [List.find?_cons]
      simp [h, ih]

/-! Account secret store theorems. -/

/-- Claim C5: when the durable write during `addAccount` or `removeAccount`
throws, the mutating call fails (the exception escapes: success flag `false`)
and no snapshot is published on the accounts stream (the emitted sequence is
unchanged; the durable blob is untouched as well). -/
theorem mutation_persistFailure_noPublish (u : IUnauthenticatedUser)
    (s : StoreState) :
    (addAccount false u s).2 = false ∧
    (addAccount false u s).1.emitted = s.emitted ∧
    (addAccount false u s).1.blob = s.blob ∧
    (removeAccount false u s).2 = false ∧
    (removeAccount false u s).1.emitted = s.emitted ∧
    (removeAccount false u s).1.blob = s.blob := by
  refine ⟨rfl, rfl, rfl, rfl, rfl, rfl⟩

/-- Claim C6: `createAccount` never mutates the store state (registry map,
durable blob, stream all unchanged), and returns `null` exactly when the
encryption collaborator produced no account; it is the only store operation
whose result can be `null` (`addAccount`/`removeAccount` return no value). -/
theorem createAccount_pure_null_iff
    (e : IProfile → Option String → Option IUnauthenticatedUser)
    (p : IProfile) (pin : Option String) (s : StoreState) :
    (createAccount e p pin s).1 = s ∧
    ((createAccount e p pin s).2 = none ↔ e p pin = none) := by
  refine ⟨createAccount_state_eq e p pin s, ?_⟩
  rw [createAccount_result_eq]

/-- Claim C7: `addAccount(A)` followed by `removeAccount(A)` (with the
durable writes succeeding) leaves the registry without an entry for `A.npub`,
and the durable blob after the sequence also has no entry for `A.npub`. -/
theorem addAccount_removeAccount_roundtrip (a : IUnauthenticatedUser)
    (s : StoreState) :
    findAccount (removeAccount true a (addAccount true a s).1).1.accounts a.npub
      = none ∧
    findAccount (removeAccount true a (addAccount true a s).1).1.blob a.npub
      = none := by
  unfold removeAccount addAccount update
  simp only [if_pos]
  exact ⟨find_delete_none _ _, find_delete_none _ _⟩

/-- Claim C8: at construction the latest stream value is the account list
seeded from durable storage (not an empty list), and after every completed
`addAccount`/`removeAccount` the latest value equals the current full account
list; a new subscriber immediately receives that latest snapshot
(behavior-subject semantics, modelled by `subscribeNow`). -/
theorem accountsStream_latest_is_registry
    (persisted : List IUnauthenticatedUser) (u : IUnauthenticatedUser)
    (s : StoreState) :
    subscribeNow (initStore persisted) = some (initStore persisted).accounts ∧
    (initStore persisted).accounts = persisted ∧
    subscribeNow (addAccount true u s).1 = some (addAccount true u s).1.accounts ∧
    subscribeNow (removeAccount true u s).1
      = some (removeAccount true u s).1.accounts := by
  refine ⟨rfl, rfl, ?_, ?_⟩ <;>
    simp [subscribeNow, addAccount, removeAccount, update, initStore]

/-! Helper lemmas about the JS Set dedup and the cache. -/

theorem jsSetDedup_aux_nodup (l acc : List String) (h : acc.Nodup) :
    (l.foldl (fun acc x => if acc.contains x then acc else acc ++ [x]) acc).Nodup := by
  induction l generalizing acc with
  | nil => exact h
  | cons a t ih =>
    simp only [List.foldl_cons]
    by_cases hc : acc.contains a = true
    · rw [if_pos hc]
      exact ih _ h
    · rw [if_neg hc]
      apply ih
      have hna : a ∉ acc := by
        intro hm
        exact hc (List.elem_eq_true_of_mem hm)
      simp [List.nodup_append, h, hna]

theorem jsSetDedup_nodup (l : List String) : (jsSetDedup l).Nodup :=
  jsSetDedup_aux_nodup l [] List.nodup_nil

theorem jsSetDedup_aux_mem (l acc : List String) (x : String) :
    x ∈ l.foldl (fun acc y => if acc.contains y then acc else acc ++ [y]) acc ↔
      x ∈ acc ∨ x ∈ l := by
  induction l generalizing acc with
  | nil => simp
  | cons a t ih =>
    simp only [List.foldl_cons, List.mem_cons]
    by_cases hc : acc.contains a = true
    · rw [if_pos hc, ih]
      have ha : a ∈ acc := List.mem_of_elem_eq_true hc
      constructor
      · rintro (h | h)
        · exact Or.inl h
        · exact Or.inr (Or.inr h)
      · rintro (h | h | h)
        · exact Or.inl h
        · exact Or.inl (h ▸ ha)
        · exact Or.inr h
    · rw [if_neg hc, ih]
      simp only [List.mem_append, List.mem_singleton]
      tauto

theorem mem_jsSetDedup (l : List String) (x : String) :
    x ∈ jsSetDedup l ↔ x ∈ l := by
  unfold jsSetDedup
  rw [jsSetDedup_aux_mem]
  simp

theorem jsSetDedup_singleton (x : String) : jsSetDedup [x] = [x] := rfl

theorem notLoadedOf_nodup (st : ProfileCacheState) (npubss : List (List String)) :
    (notLoadedOf st npubss).Nodup :=
  (jsSetDedup_nodup _).filter _

theorem notLoadedOf_empty_cache (npubss : List (List String)) :
    notLoadedOf [] npubss = jsSetDedup npubss.flatten := by
  unfold notLoadedOf
  apply List.filter_eq_self.mpr
  intro a _
  rfl

theorem notLoadedOf_allEager (st : ProfileCacheState)
    (npubss : List (List String))
    (hall : ∀ n ∈ npubss.flatten, isEagerLoaded st n = true) :
    notLoadedOf st npubss = [] := by
  unfold notLoadedOf
  apply List.filter_eq_nil_iff.mpr
  intro a ha
  have := (mem_jsSetDedup _ a).mp ha
  simp [hall a this]

theorem forceProfileReload_calls (api : RemoteApi) (st : ProfileCacheState)
    (npubs : List String) : (forceProfileReload api st npubs).calls = [npubs] := by
  unfold forceProfileReload
  cases api npubs <;> rfl

theorem cacheGet_npub (st : ProfileCacheState) (n : String) :
    (cacheGet st n).npub = n := by
  unfold cacheGet
  cases h : findProfile st n with
  | none => rfl
  | some p =>
    have := List.find?_some h
    exact eq_of_beq this

theorem findProfile_cacheSetUser (st : ProfileCacheState) (n : String)
    (u : NostrUser) :
    findProfile (cacheSetUser st n u) n =
      (findProfile st n).map (fun q => { q with user := some u }) := by
  induction st with
  | nil => rfl
  | cons a t ih =>
    simp only [findProfile, cacheSetUser, List.map_cons, List.find?_cons] at ih ⊢
    cases h : (a.npub == n) with
    | true => simp [h]
    | false => simpa [h] using ih

/-! Profile orchestrator theorems. -/

/-- Claim C1, counterexample to the claim as stated: with `p1` already
`EAGER_LOADED` in the cache, `loadProfiles([["p1","p2"]])` resolves to an
array with a single profile (for `p2`), not one profile per identifier of the
de-duplicated union `["p1","p2"]` — the eager-loaded `p1` is not served from
cache into the result, it is simply dropped. -/
theorem loadProfiles_union_counterexample :
    isEagerLoaded cacheP1 "p1" = true ∧
    jsSetDedup ([["p1", "p2"]] : List (List String)).flatten = ["p1", "p2"] ∧
    (loadProfiles apiEcho cacheP1 [["p1", "p2"]]).result =
      Except.ok [{ npub := "p2", displayName := "c:p2", user := none,
                   load := DataLoadType.EAGER_LOADED }] := by
  refine ⟨rfl, rfl, rfl⟩

/-- Claim C1, amended: when the remote fetch succeeds, `loadProfiles`
resolves to an array containing exactly one profile per identifier of the
de-duplicated union of all batches that is NOT already `EAGER_LOADED`, in
union order (identifiers already `EAGER_LOADED` are dropped from the result,
not served from cache); with an empty cache the filtered union is the full
de-duplicated union, so the example scenario holds: the result has length 3
in `[p1,p2,p3]` order. -/
theorem loadProfiles_result_per_notLoaded (api : RemoteApi)
    (st : ProfileCacheState) (npubss : List (List String))
    (evs : List ProfileEvent)
    (h : api (notLoadedOf st npubss) = Except.ok evs) :
    ∃ ps, (loadProfiles api st npubss).result = Except.ok ps ∧
      ps.length = (notLoadedOf st npubss).length ∧
      ps.map (fun p => p.npub) = notLoadedOf st npubss ∧
      (st = [] → notLoadedOf st npubss = jsSetDedup npubss.flatten) := by
  refine ⟨(notLoadedOf st npubss).map (fun n => cacheGet (cacheEvents st evs) n),
    ?_, ?_, ?_, ?_⟩
  · unfold loadProfiles forceProfileReload
    rw [h]
  · simp
  · rw [List.map_map]
    have hid : ∀ n ∈ notLoadedOf st npubss,
        (Function.comp (fun p => IProfile.npub p)
          (fun n => cacheGet (cacheEvents st evs) n)) n = id n := by
      intro n _
      simpa using cacheGet_npub (cacheEvents st evs) n
    rw [List.map_congr_left hid, List.map_id]
  · intro hst
    subst hst
    exact notLoadedOf_empty_cache npubss

/-- Claim C1 witness: the empty-cache example scenario,
`loadProfiles([["p1","p2"],["p2","p3"]])` with a remote source answering
every identifier. -/
theorem loadProfiles_result_per_notLoaded_witness :
    ∃ ps, (loadProfiles apiEcho [] [["p1", "p2"], ["p2", "p3"]]).result
        = Except.ok ps ∧
      ps.length = (notLoadedOf [] [["p1", "p2"], ["p2", "p3"]]).length ∧
      ps.map (fun p => p.npub) = notLoadedOf [] [["p1", "p2"], ["p2", "p3"]] ∧
      (([] : ProfileCacheState) = [] →
        notLoadedOf [] [["p1", "p2"], ["p2", "p3"]]
          = jsSetDedup ([["p1", "p2"], ["p2", "p3"]] : List (List String)).flatten) :=
  loadProfiles_result_per_notLoaded apiEcho [] [["p1", "p2"], ["p2", "p3"]] _ rfl

/-- Claim C2: every `loadProfiles` call issues exactly one remote fetch, its
identifier list is the de-duplicated, eager-filtered union, contains no
duplicate, and therefore contains each identifier at most once however many
times and in however many batches it was requested. -/
theorem loadProfiles_one_deduped_fetch (api : RemoteApi)
    (st : ProfileCacheState) (npubss : List (List String)) :
    (loadProfiles api st npubss).calls = [notLoadedOf st npubss] ∧
    (notLoadedOf st npubss).Nodup ∧
    ∀ x, (notLoadedOf st npubss).count x ≤ 1 := by
  refine ⟨forceProfileReload_calls api st _, notLoadedOf_nodup st npubss, ?_⟩
  intro x
  exact List.nodup_iff_count_le_one.mp (notLoadedOf_nodup st npubss) x

/-- Claim C3, counterexample to the claim as stated: with `p1` already
`EAGER_LOADED`, a batch load of `["p1"]` does pass nothing to the remote
fetch, but it resolves to the empty array — it does not return the cached
profile for `p1`. -/
theorem load_eager_batch_counterexample :
    isEagerLoaded cacheP1 "p1" = true ∧
    findProfile cacheP1 "p1" = some pEager ∧
    (loadProfiles apiEcho cacheP1 [["p1"]]).result = Except.ok [] := by
  refine ⟨rfl, rfl, rfl⟩

/-- Claim C3, amended: once `isEagerLoaded(X)` is true, a subsequent
single-identifier `load(X)` performs no remote fetch at all, leaves the cache
unchanged and returns the cached profile unchanged; and no batch load ever
passes `X` to the remote fetch (`X` is excluded from every fetch list — but a
batch load omits the cached profile from its result rather than serving it).
Re-fetching an `EAGER_LOADED` profile happens only through the explicit
`forceProfileReload`. -/
theorem eager_never_refetched (api : RemoteApi) (st : ProfileCacheState)
    (x : String) (hx : isEagerLoaded st x = true) :
    (∃ p, findProfile st x = some p ∧
      load api st x = { cache := st, calls := [], result := Except.ok (some p) }) ∧
    ∀ npubss, x ∉ notLoadedOf st npubss := by
  constructor
  · unfold isEagerLoaded at hx
    cases hf : findProfile st x with
    | none => rw [hf] at hx; cases hx
    | some p =>
      rw [hf] at hx
      refine ⟨p, rfl, ?_⟩
      have hload : p.load = DataLoadType.EAGER_LOADED := eq_of_beq hx
      unfold load
      rw [hf]
      simp [hload]
  · intro npubss hmem
    unfold notLoadedOf at hmem
    have h2 := (List.mem_filter.mp hmem).2
    rw [hx] at h2
    cases h2

/-- Claim C3 witness: the eager-loaded `p1` of `cacheP1`. -/
theorem eager_never_refetched_witness :
    (∃ p, findProfile cacheP1 "p1" = some p ∧
      load apiEcho cacheP1 "p1" =
        { cache := cacheP1, calls := [], result := Except.ok (some p) }) ∧
    ∀ npubss, "p1" ∉ notLoadedOf cacheP1 npubss :=
  eager_never_refetched apiEcho cacheP1 "p1" (by decide)

/-- Claim C4: when the remote fetch rejects, both `loadProfiles` and
`forceProfileReload` propagate the error to the caller and leave the profile
cache exactly as it was — nothing is cached from the failed response, absent
identifiers stay absent and already-cached `EAGER_LOADED` entries are
unchanged. -/
theorem fetchError_propagates_cache_unchanged (api : RemoteApi)
    (st : ProfileCacheState) (npubss : List (List String)) (e : FetchErr)
    (h : api (notLoadedOf st npubss) = Except.error e) :
    (loadProfiles api st npubss).cache = st ∧
    (loadProfiles api st npubss).result = Except.error e ∧
    ∀ l, api l = Except.error e →
      (forceProfileReload api st l).cache = st ∧
      (forceProfileReload api st l).result = Except.error e := by
  refine ⟨?_, ?_, ?_⟩
  · unfold loadProfiles forceProfileReload
    rw [h]
  · unfold loadProfiles forceProfileReload
    rw [h]
  · intro l hl
    unfold forceProfileReload
    rw [hl]
    exact ⟨rfl, rfl⟩

/-- Claim C4 witness: the failure scenario — the fetch for `["p4"]` rejects,
the error propagates and the cache (holding only the eager `p1`) is
untouched; `p4` remains absent. -/
theorem fetchError_propagates_witness :
    (loadProfiles apiFail cacheP1 [["p4"]]).cache = cacheP1 ∧
    (loadProfiles apiFail cacheP1 [["p4"]]).result
      = Except.error FetchErr.fetchFailed ∧
    ∀ l, apiFail l = Except.error FetchErr.fetchFailed →
      (forceProfileReload apiFail cacheP1 l).cache = cacheP1 ∧
      (forceProfileReload apiFail cacheP1 l).result
        = Except.error FetchErr.fetchFailed :=
  fetchError_propagates_cache_unchanged apiFail cacheP1 [["p4"]]
    FetchErr.fetchFailed rfl

/-- Claim C9: when every requested identifier is already `EAGER_LOADED`,
`loadProfiles` still issues exactly one remote fetch, with the empty
identifier list, and resolves to the empty array; consequently `loadProfile`
(and hence the batch form of `load`) for an eager-loaded identifier resolves
to `undefined` rather than the cached profile. -/
theorem loadProfiles_allEager_empty_fetch (api : RemoteApi)
    (st : ProfileCacheState) (npubss : List (List String))
    (evs : List ProfileEvent)
    (hall : ∀ n ∈ npubss.flatten, isEagerLoaded st n = true)
    (hapi : api [] = Except.ok evs) :
    (loadProfiles api st npubss).calls = [[]] ∧
    (loadProfiles api st npubss).result = Except.ok [] ∧
    ∀ x, isEagerLoaded st x = true →
      (loadProfile api st x).result = Except.ok none := by
  have hempty : notLoadedOf st npubss = [] := notLoadedOf_allEager st npubss hall
  refine ⟨?_, ?_, ?_⟩
  · unfold loadProfiles
    rw [hempty]
    unfold forceProfileReload
    rw [hapi]
  · unfold loadProfiles
    rw [hempty]
    unfold forceProfileReload
    rw [hapi]
    rfl
  · intro x hx
    have h1 : notLoadedOf st [[x]] = [] := by
      unfold notLoadedOf
      have h2 : ([[x]] : List (List String)).flatten = [x] := by simp
      rw [h2, jsSetDedup_singleton]
      simp [hx]
    unfold loadProfile loadProfiles
    rw [h1]
    unfold forceProfileReload
    rw [hapi]
    rfl

/-- Claim C9 witness: both batches request the eager-loaded `p1`; the one
fetch carries the empty list and the call resolves to the empty array. -/
theorem loadProfiles_allEager_witness :
    (loadProfiles apiEcho cacheP1 [["p1"], ["p1"]]).calls = [[]] ∧
    (loadProfiles apiEcho cacheP1 [["p1"], ["p1"]]).result = Except.ok [] ∧
    ∀ x, isEagerLoaded cacheP1 x = true →
      (loadProfile apiEcho cacheP1 x).result = Except.ok none :=
  loadProfiles_allEager_empty_fetch apiEcho cacheP1 [["p1"], ["p1"]] []
    (by decide) rfl

/-- Claim C10: `loadAccount` assigns the newly constructed user handle to the
cached profile before delegating to `createAccount` — the profile handed to
the encryption collaborator already carries the handle, the cache entry for
that identifier keeps the handle in the final state whatever the collaborator
returns (including `null`), and the account registry state is returned
exactly as it was passed in. -/
theorem loadAccount_user_set_registry_unchanged (api : RemoteApi)
    (encrypt : IProfile → Option String → Option IUnauthenticatedUser)
    (derive : String → String) (st : ProfileCacheState) (store : StoreState)
    (nsec pin : String) (p : IProfile)
    (h : (load api st (derive nsec)).result = Except.ok (some p)) :
    (loadAccount api encrypt derive st store nsec pin).2.1 = store ∧
    findProfile (loadAccount api encrypt derive st store nsec pin).1 p.npub =
      (findProfile (load api st (derive nsec)).cache p.npub).map
        (fun q => { q with
          user := some { nsec := nsec, nostrPublic := derive nsec } }) ∧
    (loadAccount api encrypt derive st store nsec pin).2.2 =
      Except.ok (encrypt
        { p with user := some { nsec := nsec, nostrPublic := derive nsec } }
        (some pin)) := by
  simp only [loadAccount]
  rw [h]
  refine ⟨createAccount_state_eq encrypt _ _ store, ?_, ?_⟩
  · exact findProfile_cacheSetUser _ p.npub _
  · exact congrArg Except.ok (createAccount_result_eq encrypt _ (some pin) store)

/-- Claim C10 witness: a fresh cache, an encryption collaborator that always
fails (`createAccount` returns `null`), yet after `loadAccount` the cached
profile for the derived identifier carries the user handle, and the account
registry state is unchanged. -/
theorem loadAccount_user_set_witness :
    (loadAccount apiEcho encryptNone deriveN [] (initStore []) "sec" "1234").2.1
      = initStore [] ∧
    findProfile
        (loadAccount apiEcho encryptNone deriveN [] (initStore []) "sec" "1234").1
        prof1.npub =
      (findProfile (load apiEcho [] (deriveN "sec")).cache prof1.npub).map
        (fun q => { q with
          user := some { nsec := "sec", nostrPublic := deriveN "sec" } }) ∧
    (loadAccount apiEcho encryptNone deriveN [] (initStore []) "sec" "1234").2.2 =
      Except.ok (encryptNone
        { prof1 with user := some { nsec := "sec", nostrPublic := deriveN "sec" } }
        (some "1234")) :=
  loadAccount_user_set_registry_unchanged apiEcho encryptNone deriveN []
    (initStore []) "sec" "1234" prof1 (by rfl)
